import Mathlib

/-
  Verification development for the CORTEX game engine (src/js/state.js and
  src/js/data.js).

  The embedding below translates the content catalog and every state-mutating
  operation of the engine into executable Lean definitions.  Display-only
  string fields of catalog records (names, labels, scene descriptions,
  dialogue text, speaker names, clue summaries and tags) are omitted: no
  operation of state.js reads them; every field that any embedded operation
  reads is kept, with the source names.  JavaScript console.warn calls are
  modelled by an explicit list of Warning values returned alongside the new
  state, since several spec sentences distinguish logged failures from silent
  no-ops.
-/

set_option maxHeartbeats 1000000

namespace Cortex

/-! ## Content catalog (data.js) -/

/-- A location record.  Only the id is read by state.js. -/
structure Location where
  id : String
deriving DecidableEq, Repr

/-- A suspect record.  Only the id is read by state.js. -/
structure Suspect where
  id : String
deriving DecidableEq, Repr

/-- A motive record.  Only the id is read by state.js. -/
structure Motive where
  id : String
deriving DecidableEq, Repr

/-- A clue record: id, the location where it is found, and the critical
flag.  Display fields are omitted. -/
structure Clue where
  id : String
  locationId : String
  isCritical : Bool
deriving DecidableEq, Repr

/-- One dialogue line; the speaker and text fields are display-only and
omitted.  Only the number of lines in a script matters to state.js. -/
structure DialogueLine where
  id : String
deriving DecidableEq, Repr

/-- LOCATIONS from data.js, in source order. -/
def LOCATIONS : List Location :=
  [⟨"lab"⟩, ⟨"server_vault"⟩, ⟨"rooftop"⟩]

/-- SUSPECTS from data.js, in source order. -/
def SUSPECTS : List Suspect :=
  [⟨"rhea"⟩, ⟨"milo"⟩, ⟨"dana"⟩]

/-- MOTIVES from data.js, in source order. -/
def MOTIVES : List Motive :=
  [⟨"greed"⟩, ⟨"fear"⟩, ⟨"coverup"⟩]

/-- CLUES from data.js, in source order. -/
def CLUES : List Clue :=
  [⟨"locked_office", "lab", true⟩,
   ⟨"badge_log_anomaly", "server_vault", true⟩,
   ⟨"audit_log_redactions", "server_vault", true⟩,
   ⟨"investor_pressure_email", "lab", false⟩,
   ⟨"rooftop_argument", "rooftop", true⟩,
   ⟨"cortex_memory_gap", "server_vault", false⟩,
   ⟨"milo_casino_sim", "lab", false⟩,
   ⟨"victim_exit_request", "rooftop", true⟩]

/-- INTRO_DIALOGUE from data.js: four lines. -/
def INTRO_DIALOGUE : List DialogueLine :=
  [⟨"intro_1"⟩, ⟨"intro_2"⟩, ⟨"intro_3"⟩, ⟨"intro_4"⟩]

/-- A per-location dialogue script: the intro lines and the repeat lines.
The source field name of the second component is repeat, a reserved word
here, so it is called repeatScript. -/
structure LocationScript where
  intro : List DialogueLine
  repeatScript : List DialogueLine
deriving DecidableEq, Repr

/-- LOCATION_DIALOGUE from data.js, as an association list keyed by
location id (object key lookup in the source). -/
def LOCATION_DIALOGUE : List (String × LocationScript) :=
  [("lab", ⟨[⟨"lab_intro_1"⟩, ⟨"lab_intro_2"⟩], [⟨"lab_repeat_1"⟩]⟩),
   ("server_vault", ⟨[⟨"vault_intro_1"⟩, ⟨"vault_intro_2"⟩], [⟨"vault_repeat_1"⟩]⟩),
   ("rooftop", ⟨[⟨"roof_intro_1"⟩, ⟨"roof_intro_2"⟩], [⟨"roof_repeat_1"⟩]⟩)]

/-- A per-suspect dialogue script.  Only the intro line sequence is read by
state.js (the topics map is consumed by the UI layer only), so topics are
omitted here. -/
structure SuspectScript where
  intro : List DialogueLine
deriving DecidableEq, Repr

/-- SUSPECT_DIALOGUE from data.js, as an association list keyed by
suspect id. -/
def SUSPECT_DIALOGUE : List (String × SuspectScript) :=
  [("rhea", ⟨[⟨"rhea_intro_1"⟩, ⟨"rhea_intro_2"⟩]⟩),
   ("milo", ⟨[⟨"milo_intro_1"⟩, ⟨"milo_intro_2"⟩]⟩),
   ("dana", ⟨[⟨"dana_intro_1"⟩, ⟨"dana_intro_2"⟩]⟩)]

/-- ENDINGS from data.js, as an association list keyed by ending key. -/
def ENDINGS : List (String × List DialogueLine) :=
  [("perfect", [⟨"ending_perfect_1"⟩, ⟨"ending_perfect_2"⟩]),
   ("close", [⟨"ending_close_1"⟩]),
   ("wrong", [⟨"ending_wrong_1"⟩])]

/-- The canonical case solution (CASE_SOLUTION in state.js). -/
structure CaseSolution where
  culpritId : String
  motiveId : String
  criticalClueIds : List String
deriving DecidableEq, Repr

/-- CASE_SOLUTION from state.js. -/
def CASE_SOLUTION : CaseSolution :=
  ⟨"rhea", "coverup",
   ["locked_office", "badge_log_anomaly", "audit_log_redactions",
    "rooftop_argument", "victim_exit_request"]⟩

/-- Object.values(GAME_PHASES) from state.js, in declaration order. -/
def GAME_PHASES_values : List String :=
  ["intro", "investigation", "deduction", "accusation", "ending"]

/-! ## Game state shape (createInitialState in state.js) -/

/-- The dialogue cursor: kind, target id (null for the intro kind) and the
0-based index into the resolved line sequence. -/
structure DialogueContext where
  kind : String
  targetId : Option String
  index : Nat
deriving DecidableEq, Repr

/-- The accusation triple; every field is nullable. -/
structure Accusation where
  suspectId : Option String
  motiveId : Option String
  evidenceId : Option String
deriving DecidableEq, Repr

/-- The score record written by evaluateAccusation. -/
structure Score where
  culpritCorrect : Bool
  motiveCorrect : Bool
  criticalCluesFound : Nat
  criticalCluesTotal : Nat
deriving DecidableEq, Repr

/-- The full game state.  JavaScript Sets (labActionsUsed, the per-suspect
unlocked-topic sets) are modelled as insertion-ordered duplicate-free lists;
the flags object and the two per-suspect objects are association lists. -/
structure GameState where
  phase : String
  currentLocationId : Option String
  previousLocationId : Option String
  visitedLocationIds : List String
  discoveredClueIds : List String
  labActionsUsed : List String
  flags : List (String × Bool)
  dialogueContext : DialogueContext
  suspectIntroSeen : List (String × Bool)
  unlockedTopicsBySuspect : List (String × List String)
  cortexHintsEnabled : Bool
  accusation : Accusation
  endingKey : Option String
  score : Score
deriving DecidableEq, Repr

/-- createInitialState from state.js. -/
def createInitialState : GameState where
  phase := "intro"
  currentLocationId := none
  previousLocationId := none
  visitedLocationIds := []
  discoveredClueIds := []
  labActionsUsed := []
  flags := []
  dialogueContext := ⟨"intro", none, 0⟩
  suspectIntroSeen := SUSPECTS.map (fun sus => (sus.id, false))
  unlockedTopicsBySuspect := SUSPECTS.map (fun sus => (sus.id, []))
  cortexHintsEnabled := true
  accusation := ⟨none, none, none⟩
  endingKey := none
  score := ⟨false, false, 0, CASE_SOLUTION.criticalClueIds.length⟩

/-- One value per console.warn call site in state.js, carrying the
interpolated id. -/
inductive Warning where
  | unknownPhase (phase : String)
  | unknownLocation (locationId : String)
  | unknownClue (clueId : String)
  | unknownSuspectIntro (suspectId : String)
  | unknownSuspectTopic (suspectId : String)
  | noLocationScript (targetId : Option String)
  | noSuspectScript (targetId : Option String)
  | noEndingScript (targetId : Option String)
  | unknownDialogueKind (kind : String)
  | accusationUnknownSuspect (suspectId : String)
  | accusationUnknownMotive (motiveId : String)
  | accusationUnknownEvidence (evidenceId : String)
deriving DecidableEq, Repr

/-! ## Lookup helpers (state.js) -/

/-- findLocationById from state.js. -/
def findLocationById (locationId : String) : Option Location :=
  LOCATIONS.find? (fun loc => loc.id == locationId)

/-- findSuspectById from state.js. -/
def findSuspectById (suspectId : String) : Option Suspect :=
  SUSPECTS.find? (fun sus => sus.id == suspectId)

/-- findMotiveById from state.js. -/
def findMotiveById (motiveId : String) : Option Motive :=
  MOTIVES.find? (fun mot => mot.id == motiveId)

/-- findClueById from state.js. -/
def findClueById (clueId : String) : Option Clue :=
  CLUES.find? (fun clue => clue.id == clueId)

/-- Object-key lookup in LOCATION_DIALOGUE. -/
def lookupLocationScript (targetId : String) : Option LocationScript :=
  (LOCATION_DIALOGUE.find? (fun p => p.1 == targetId)).map (fun p => p.2)

/-- Object-key lookup in SUSPECT_DIALOGUE. -/
def lookupSuspectScript (targetId : String) : Option SuspectScript :=
  (SUSPECT_DIALOGUE.find? (fun p => p.1 == targetId)).map (fun p => p.2)

/-- Object-key lookup in ENDINGS. -/
def lookupEndingScript (targetId : String) : Option (List DialogueLine) :=
  (ENDINGS.find? (fun p => p.1 == targetId)).map (fun p => p.2)

/-- addUniqueToArray from state.js: pushes the value when absent; returns
the (possibly unchanged) array together with the was-added boolean. -/
def addUniqueToArray (arr : List String) (value : String) : List String × Bool :=
  if value ∈ arr then (arr, false) else (arr ++ [value], true)

/-! ## Mutators and queries (state.js) -/

/-- resetGameState from state.js: replaces the whole state instance. -/
def resetGameState (_s : GameState) : GameState :=
  createInitialState

/-- setPhase from state.js: warns and leaves the state unchanged on an
unrecognized phase; otherwise sets the phase, additionally resetting the
dialogue context when entering the intro phase. -/
def setPhase (s : GameState) (phase : String) : GameState × List Warning :=
  if phase ∈ GAME_PHASES_values then
    let s1 : GameState := { s with phase := phase }
    if phase = "intro" then
      ({ s1 with dialogueContext := ⟨"intro", none, 0⟩ }, [])
    else
      (s1, [])
  else
    (s, [Warning.unknownPhase phase])

/-- The value returned by setCurrentLocation: undefined on failure, the
resolved location object paired with isFirstVisit on success. -/
structure VisitResult where
  state : GameState
  ret : Option (Location × Bool)
  warnings : List Warning
deriving DecidableEq, Repr

/-- setCurrentLocation from state.js (exposed to the UI as the
visit-location operation). -/
def setCurrentLocation (s : GameState) (locationId : String) : VisitResult :=
  match findLocationById locationId with
  | none => ⟨s, none, [Warning.unknownLocation locationId]⟩
  | some location =>
    let s1 : GameState :=
      { s with previousLocationId := s.currentLocationId
               currentLocationId := some locationId }
    let added := addUniqueToArray s1.visitedLocationIds locationId
    let s2 : GameState :=
      { s1 with visitedLocationIds := added.1
                dialogueContext := ⟨"location", some locationId, 0⟩ }
    ⟨s2, some (location, added.2), []⟩

/-- hasVisitedLocation from state.js. -/
def hasVisitedLocation (s : GameState) (locationId : String) : Bool :=
  s.visitedLocationIds.contains locationId

/-- The value returned by discoverClue and revealNextCriticalClue: the clue
object when newly discovered, null otherwise. -/
structure DiscoverResult where
  state : GameState
  ret : Option Clue
  warnings : List Warning
deriving DecidableEq, Repr

/-- discoverClue from state.js: warns and returns null on an unknown id;
otherwise adds the id to discoveredClueIds when absent and returns the clue
object exactly when it was newly added (null when already known). -/
def discoverClue (s : GameState) (clueId : String) : DiscoverResult :=
  match findClueById clueId with
  | none => ⟨s, none, [Warning.unknownClue clueId]⟩
  | some clue =>
    let added := addUniqueToArray s.discoveredClueIds clueId
    ⟨{ s with discoveredClueIds := added.1 },
     if added.2 then some clue else none, []⟩

/-- hasClue from state.js. -/
def hasClue (s : GameState) (clueId : String) : Bool :=
  s.discoveredClueIds.contains clueId

/-- getDiscoveredClues from state.js: map then filter(Boolean). -/
def getDiscoveredClues (s : GameState) : List Clue :=
  s.discoveredClueIds.filterMap findClueById

/-- revealNextCriticalClue from state.js: takes the first critical clue id
not yet discovered (in CASE_SOLUTION order) and discovers it; returns null
when none remain. -/
def revealNextCriticalClue (s : GameState) : DiscoverResult :=
  let remaining := CASE_SOLUTION.criticalClueIds.filter
    (fun id => !(s.discoveredClueIds.contains id))
  match remaining with
  | [] => ⟨s, none, []⟩
  | nextId :: _ => discoverClue s nextId

/-- markSuspectIntroSeen from state.js: hasOwnProperty guard, then sets the
flag for the suspect to true. -/
def markSuspectIntroSeen (s : GameState) (suspectId : String) :
    GameState × List Warning :=
  if s.suspectIntroSeen.any (fun p => p.1 == suspectId) then
    ({ s with suspectIntroSeen :=
        (s.suspectIntroSeen.map
          (fun p => if p.1 == suspectId then (p.1, true) else p)) }, [])
  else
    (s, [Warning.unknownSuspectIntro suspectId])

/-- isSuspectIntroSeen from state.js: double-negation of the looked-up
value, so a missing key reads as false. -/
def isSuspectIntroSeen (s : GameState) (suspectId : String) : Bool :=
  match s.suspectIntroSeen.find? (fun p => p.1 == suspectId) with
  | none => false
  | some p => p.2

/-- unlockSuspectTopic from state.js: warns when the suspect key is absent
(a present Set is always truthy, even when empty); otherwise adds the topic
to the suspect set. -/
def unlockSuspectTopic (s : GameState) (suspectId topicId : String) :
    GameState × List Warning :=
  match s.unlockedTopicsBySuspect.find? (fun p => p.1 == suspectId) with
  | none => (s, [Warning.unknownSuspectTopic suspectId])
  | some _ =>
    ({ s with unlockedTopicsBySuspect :=
        (s.unlockedTopicsBySuspect.map
          (fun p =>
            if p.1 == suspectId then
              (p.1, if topicId ∈ p.2 then p.2 else p.2 ++ [topicId])
            else p)) }, [])

/-- getUnlockedTopicsForSuspect from state.js. -/
def getUnlockedTopicsForSuspect (s : GameState) (suspectId : String) :
    List String :=
  match s.unlockedTopicsBySuspect.find? (fun p => p.1 == suspectId) with
  | none => []
  | some p => p.2

/-- markLabActionUsed from state.js: Set insertion (the instanceof guard in
the source only re-creates a Set that is always a Set here). -/
def markLabActionUsed (s : GameState) (actionId : String) : GameState :=
  { s with labActionsUsed :=
      if actionId ∈ s.labActionsUsed then s.labActionsUsed
      else s.labActionsUsed ++ [actionId] }

/-- isLabActionUsed from state.js. -/
def isLabActionUsed (s : GameState) (actionId : String) : Bool :=
  s.labActionsUsed.contains actionId

/-- setFlag from state.js: object property assignment, so an existing key
is overwritten in place and a new key is appended. -/
def setFlag (s : GameState) (flagName : String) (value : Bool) : GameState :=
  { s with flags :=
      if s.flags.any (fun p => p.1 == flagName) then
        s.flags.map (fun p => if p.1 == flagName then (p.1, value) else p)
      else s.flags ++ [(flagName, value)] }

/-- getFlag from state.js: missing key reads as false. -/
def getFlag (s : GameState) (flagName : String) : Bool :=
  match s.flags.find? (fun p => p.1 == flagName) with
  | none => false
  | some p => p.2

/-- clearFlag from state.js: deletes the key when present. -/
def clearFlag (s : GameState) (flagName : String) : GameState :=
  { s with flags := s.flags.filter (fun p => !(p.1 == flagName)) }

/-- setDialogueContext from state.js: unconditional overwrite. -/
def setDialogueContext (s : GameState) (kind : String)
    (targetId : Option String) (index : Nat) : GameState :=
  { s with dialogueContext := ⟨kind, targetId, index⟩ }

/-- toggleCortexHints from state.js: flips the flag and returns the new
value. -/
def toggleCortexHints (s : GameState) : GameState × Bool :=
  ({ s with cortexHintsEnabled := !s.cortexHintsEnabled },
   !s.cortexHintsEnabled)

/-- Resolution of the active line sequence inside advanceDialogueIndex:
the switch on dialogueContext.kind, including the warnings its failure
branches log.  The index field is never read here. -/
def resolveDialogue (ctx : DialogueContext) :
    Option (List DialogueLine) × List Warning :=
  match ctx.kind with
  | "intro" => (some INTRO_DIALOGUE, [])
  | "location" =>
    match ctx.targetId.bind lookupLocationScript with
    | none => (none, [Warning.noLocationScript ctx.targetId])
    | some locScript => (some locScript.intro, [])
  | "suspect" =>
    match ctx.targetId.bind lookupSuspectScript with
    | none => (none, [Warning.noSuspectScript ctx.targetId])
    | some suspectScript => (some suspectScript.intro, [])
  | "ending" =>
    match ctx.targetId.bind lookupEndingScript with
    | none => (none, [Warning.noEndingScript ctx.targetId])
    | some endingScript => (some endingScript, [])
  | kind => (none, [Warning.unknownDialogueKind kind])

/-- The value returned by advanceDialogueIndex: the string continue or
end, next to the updated state and the logged warnings. -/
structure AdvanceResult where
  state : GameState
  ret : String
  warnings : List Warning
deriving DecidableEq, Repr

/-- advanceDialogueIndex from state.js: reports end when the context is
unresolvable or the sequence is empty or the cursor is on the last line;
otherwise increments the index by one and reports continue. -/
def advanceDialogueIndex (s : GameState) : AdvanceResult :=
  let ctx := s.dialogueContext
  let res := resolveDialogue ctx
  match res.1 with
  | none => ⟨s, "end", res.2⟩
  | some dialogueArray =>
    if dialogueArray.length = 0 then ⟨s, "end", res.2⟩
    else if ctx.index + 1 < dialogueArray.length then
      ⟨{ s with dialogueContext := ⟨ctx.kind, ctx.targetId, ctx.index + 1⟩ },
       "continue", res.2⟩
    else ⟨s, "end", res.2⟩

/-- JavaScript truthiness of a nullable string: null and the empty string
are falsy. -/
def jsTruthy : Option String → Bool
  | none => false
  | some str => !(str == "")

/-- setAccusation from state.js: warns on each truthy id that misses the
catalog, then unconditionally overwrites the accusation with the given
triple. -/
def setAccusation (s : GameState) (a : Accusation) :
    GameState × List Warning :=
  let warnSuspect :=
    match a.suspectId with
    | some id =>
      if jsTruthy (some id) ∧ findSuspectById id = none then
        [Warning.accusationUnknownSuspect id]
      else []
    | none => []
  let warnMotive :=
    match a.motiveId with
    | some id =>
      if jsTruthy (some id) ∧ findMotiveById id = none then
        [Warning.accusationUnknownMotive id]
      else []
    | none => []
  let warnEvidence :=
    match a.evidenceId with
    | some id =>
      if jsTruthy (some id) ∧ findClueById id = none then
        [Warning.accusationUnknownEvidence id]
      else []
    | none => []
  ({ s with accusation := a }, warnSuspect ++ warnMotive ++ warnEvidence)

/-- Math.ceil(n / 2) on a natural number. -/
def ceilHalf (n : Nat) : Nat :=
  (n + 1) / 2

/-- The count of critical clue ids present in discoveredClueIds, as
computed inside evaluateAccusation. -/
def criticalFoundCount (s : GameState) : Nat :=
  (CASE_SOLUTION.criticalClueIds.filter
    (fun id => s.discoveredClueIds.contains id)).length

/-- The value returned by evaluateAccusation. -/
structure EvalResult where
  state : GameState
  score : Score
  endingKey : String
deriving DecidableEq, Repr

/-- evaluateAccusation from state.js: compares the stored accusation with
CASE_SOLUTION, picks the ending tier by first-match precedence, overwrites
the score, the ending key, the phase and the dialogue context, and returns
the score with the ending key. -/
def evaluateAccusation (s : GameState) : EvalResult :=
  let culpritCorrect : Bool :=
    s.accusation.suspectId == some CASE_SOLUTION.culpritId
  let motiveCorrect : Bool :=
    s.accusation.motiveId == some CASE_SOLUTION.motiveId
  let criticalTotal := CASE_SOLUTION.criticalClueIds.length
  let endingKey : String :=
    if culpritCorrect && motiveCorrect
        && (criticalFoundCount s == criticalTotal) then "perfect"
    else if culpritCorrect
        && (motiveCorrect
            || decide (ceilHalf criticalTotal ≤ criticalFoundCount s)) then
      "close"
    else "wrong"
  let score : Score :=
    ⟨culpritCorrect, motiveCorrect, criticalFoundCount s, criticalTotal⟩
  let s1 : GameState :=
    { s with score := score
             endingKey := some endingKey
             phase := "ending"
             dialogueContext := ⟨"ending", some endingKey, 0⟩ }
  ⟨s1, score, endingKey⟩

/-! ## Shared helper lemmas -/

/-- List.contains agrees with list membership on strings. -/
lemma contains_eq_mem_decide (l : List String) (a : String) :
    l.contains a = decide (a ∈ l) := by
  by_cases h : a ∈ l <;> simp [h, List.elem_iff]

/-- addUniqueToArray preserves freedom from duplicates. -/
lemma addUniqueToArray_nodup (l : List String) (a : String)
    (h : l.Nodup) : ((addUniqueToArray l a).1).Nodup := by
  unfold addUniqueToArray
  split
  · exact h
  · next hmem => simp [List.nodup_append, h, hmem]

/-- addUniqueToArray always yields an array containing the value. -/
lemma addUniqueToArray_mem (l : List String) (a : String) :
    a ∈ (addUniqueToArray l a).1 := by
  unfold addUniqueToArray
  split
  · assumption
  · simp

/-- The was-added flag of addUniqueToArray is the decided absence test. -/
lemma addUniqueToArray_snd (l : List String) (a : String) :
    (addUniqueToArray l a).2 = decide (a ∉ l) := by
  unfold addUniqueToArray
  split <;> simp_all

/-! ## Claim theorems -/

/-- C8: resetGameState replaces the state with a freshly constructed one,
independent of the prior state, in which the discovered-clue and
visited-location lists are empty, every accusation field is null, the
ending key is null and the phase is intro. -/
theorem resetGameState_fresh (s : GameState) :
    resetGameState s = createInitialState
  ∧ (∀ t : GameState, resetGameState s = resetGameState t)
  ∧ createInitialState.discoveredClueIds = []
  ∧ createInitialState.visitedLocationIds = []
  ∧ createInitialState.accusation = ⟨none, none, none⟩
  ∧ createInitialState.endingKey = none
  ∧ createInitialState.phase = "intro" :=
  ⟨rfl, fun _ => rfl, rfl, rfl, rfl, rfl, rfl⟩

/-- C10: setAccusation unconditionally overwrites the stored accusation
with exactly the given triple, for every input including unknown ids and
null fields — the state change is exactly the accusation overwrite, so an
unknown id can at most add a warning; and a truthy unknown suspect id does
produce its warning. -/
theorem setAccusation_overwrites (s : GameState) (a : Accusation) :
    (setAccusation s a).1.accusation = a
  ∧ (setAccusation s a).1 = { s with accusation := a }
  ∧ (∀ id, a.suspectId = some id → id ≠ "" → findSuspectById id = none →
      Warning.accusationUnknownSuspect id ∈ (setAccusation s a).2) := by
  refine ⟨rfl, rfl, ?_⟩
  intro id hid hne hfind
  simp [setAccusation, hid, hne, hfind, jsTruthy]

/-- C10 witness: the overwrite theorem applied to an accusation made of an
unknown suspect id, an unknown motive id and a null evidence id. -/
theorem setAccusation_overwrites_witness :
    (setAccusation createInitialState ⟨some "nobody", some "boredom", none⟩).1.accusation
      = ⟨some "nobody", some "boredom", none⟩
  ∧ Warning.accusationUnknownSuspect "nobody"
      ∈ (setAccusation createInitialState ⟨some "nobody", some "boredom", none⟩).2 :=
  ⟨(setAccusation_overwrites createInitialState
      ⟨some "nobody", some "boredom", none⟩).1,
   (setAccusation_overwrites createInitialState
      ⟨some "nobody", some "boredom", none⟩).2.2 "nobody" rfl
      (by decide) (by decide)⟩

/-- C7: on a location id absent from the catalog, setCurrentLocation logs
the unknown-location warning, returns the undefined sentinel and leaves
the entire state unchanged. -/
theorem setCurrentLocation_unknown (s : GameState) (locationId : String)
    (h : findLocationById locationId = none) :
    (setCurrentLocation s locationId).state = s
  ∧ (setCurrentLocation s locationId).ret = none
  ∧ (setCurrentLocation s locationId).warnings
      = [Warning.unknownLocation locationId] := by
  simp [setCurrentLocation, h]

/-- C7 witness: visiting the unknown location id atlantis from the
initial state changes nothing and signals the failure. -/
theorem setCurrentLocation_unknown_witness :
    (setCurrentLocation createInitialState "atlantis").state
        = createInitialState
  ∧ (setCurrentLocation createInitialState "atlantis").ret = none
  ∧ (setCurrentLocation createInitialState "atlantis").warnings
        = [Warning.unknownLocation "atlantis"] :=
  setCurrentLocation_unknown createInitialState "atlantis" (by decide)

/-- C6: on a known location id, setCurrentLocation records the previous
location, sets the current one, resets the dialogue context to the
location script at index 0, reports isFirstVisit exactly when the id was
not yet visited, and a second consecutive visit of the same id reports
isFirstVisit false. -/
theorem setCurrentLocation_known (s : GameState) (locationId : String)
    (loc : Location) (h : findLocationById locationId = some loc) :
    (setCurrentLocation s locationId).state.previousLocationId
        = s.currentLocationId
  ∧ (setCurrentLocation s locationId).state.currentLocationId
        = some locationId
  ∧ (setCurrentLocation s locationId).state.dialogueContext
        = ⟨"location", some locationId, 0⟩
  ∧ (setCurrentLocation s locationId).ret
        = some (loc, decide (locationId ∉ s.visitedLocationIds))
  ∧ locationId ∈ (setCurrentLocation s locationId).state.visitedLocationIds
  ∧ (setCurrentLocation
        (setCurrentLocation s locationId).state locationId).ret
        = some (loc, false) := by
  refine ⟨?_, ?_, ?_, ?_, ?_, ?_⟩
  · simp [setCurrentLocation, h]
  · simp [setCurrentLocation, h]
  · simp [setCurrentLocation, h]
  · simp [setCurrentLocation, h, addUniqueToArray_snd]
  · simp [setCurrentLocation, h, addUniqueToArray_mem]
  · simp [setCurrentLocation, h, addUniqueToArray_snd, addUniqueToArray_mem]

/-- C6 witness: visiting lab twice from the initial state reports
isFirstVisit true and then false. -/
theorem setCurrentLocation_known_witness :
    (setCurrentLocation createInitialState "lab").ret
        = some (⟨"lab"⟩, decide ("lab" ∉ createInitialState.visitedLocationIds))
  ∧ (setCurrentLocation
        (setCurrentLocation createInitialState "lab").state "lab").ret
        = some (⟨"lab"⟩, false) :=
  ⟨(setCurrentLocation_known createInitialState "lab" ⟨"lab"⟩ (by decide)).2.2.2.1,
   (setCurrentLocation_known createInitialState "lab" ⟨"lab"⟩ (by decide)).2.2.2.2.2⟩

/-- C3 counterexample: the no-op result of discoverClue on an
already-known id is equal, not distinct, to the failure result on an id
absent from the catalog — both return null. -/
theorem discoverClue_noop_equals_failure :
    ("locked_office" ∈
        (discoverClue createInitialState "locked_office").state.discoveredClueIds)
  ∧ findClueById "ghost_pen" = none
  ∧ (discoverClue (discoverClue createInitialState "locked_office").state
        "locked_office").ret
      = (discoverClue (discoverClue createInitialState "locked_office").state
        "ghost_pen").ret := by
  decide

/-- C3 amended: discoverClue returns the clue object exactly when the id
is in the catalog and newly added; both the already-known case and the
absent-from-catalog case return null, and the two null cases differ only
in the logged warning (the unknown id warns, the known-but-discovered id
is silent). -/
theorem discoverClue_cases (s : GameState) (clueId : String) :
    (∀ c, findClueById clueId = some c → clueId ∉ s.discoveredClueIds →
        (discoverClue s clueId).ret = some c
      ∧ (discoverClue s clueId).warnings = []
      ∧ (discoverClue s clueId).state.discoveredClueIds
          = s.discoveredClueIds ++ [clueId])
  ∧ (∀ c, findClueById clueId = some c → clueId ∈ s.discoveredClueIds →
        (discoverClue s clueId).ret = none
      ∧ (discoverClue s clueId).warnings = []
      ∧ (discoverClue s clueId).state = s)
  ∧ (findClueById clueId = none →
        (discoverClue s clueId).ret = none
      ∧ (discoverClue s clueId).warnings = [Warning.unknownClue clueId]
      ∧ (discoverClue s clueId).state = s) := by
  refine ⟨?_, ?_, ?_⟩
  · intro c hc hmem
    simp [discoverClue, hc, addUniqueToArray, hmem]
  · intro c hc hmem
    simp [discoverClue, hc, addUniqueToArray, hmem]
  · intro hc
    simp [discoverClue, hc]

/-- C3 amended witness: a fresh discovery returns the clue object, and an
unknown id returns null with the logged warning. -/
theorem discoverClue_cases_witness :
    (discoverClue createInitialState "milo_casino_sim").ret
        = some ⟨"milo_casino_sim", "lab", false⟩
  ∧ (discoverClue createInitialState "ghost_pen").ret = none
  ∧ (discoverClue createInitialState "ghost_pen").warnings
        = [Warning.unknownClue "ghost_pen"] :=
  ⟨((discoverClue_cases createInitialState "milo_casino_sim").1
      ⟨"milo_casino_sim", "lab", false⟩ (by decide) (by decide)).1,
   ((discoverClue_cases createInitialState "ghost_pen").2.2 (by decide)).1,
   ((discoverClue_cases createInitialState "ghost_pen").2.2 (by decide)).2.1⟩

/-- C5: revealNextCriticalClue discovers and returns the first id of
CASE_SOLUTION.criticalClueIds, in the declared order, that is not yet
discovered — appending exactly that id to discoveredClueIds — and returns
the none sentinel exactly when every critical clue id is already
discovered. -/
theorem revealNextCriticalClue_first (s : GameState) :
    (∀ id, CASE_SOLUTION.criticalClueIds.find?
        (fun i => !(s.discoveredClueIds.contains i)) = some id →
        (revealNextCriticalClue s).ret = findClueById id
      ∧ (revealNextCriticalClue s).ret ≠ none
      ∧ (revealNextCriticalClue s).state.discoveredClueIds
          = s.discoveredClueIds ++ [id])
  ∧ ((∀ id ∈ CASE_SOLUTION.criticalClueIds, id ∈ s.discoveredClueIds) →
        (revealNextCriticalClue s).ret = none
      ∧ (revealNextCriticalClue s).state = s)
  ∧ ((revealNextCriticalClue s).ret = none →
        ∀ id ∈ CASE_SOLUTION.criticalClueIds, id ∈ s.discoveredClueIds) := by
  by_cases h1 : "locked_office" ∈ s.discoveredClueIds <;>
    by_cases h2 : "badge_log_anomaly" ∈ s.discoveredClueIds <;>
      by_cases h3 : "audit_log_redactions" ∈ s.discoveredClueIds <;>
        by_cases h4 : "rooftop_argument" ∈ s.discoveredClueIds <;>
          by_cases h5 : "victim_exit_request" ∈ s.discoveredClueIds <;>
            simp_all [revealNextCriticalClue, CASE_SOLUTION, discoverClue,
              findClueById, CLUES, addUniqueToArray, contains_eq_mem_decide]

/-- C5 witness: from the initial state the first critical clue in the
declared order is revealed and appended. -/
theorem revealNextCriticalClue_first_witness :
    (revealNextCriticalClue createInitialState).ret
        = findClueById "locked_office"
  ∧ (revealNextCriticalClue createInitialState).state.discoveredClueIds
        = ["locked_office"] :=
  ⟨((revealNextCriticalClue_first createInitialState).1 "locked_office"
      (by decide)).1,
   ((revealNextCriticalClue_first createInitialState).1 "locked_office"
      (by decide)).2.2⟩

/-- C1: evaluateAccusation assigns the ending tier by first-match
precedence over CASE_SOLUTION: perfect exactly when the suspect is the
culprit, the motive is the solution motive and every critical clue is
discovered; close exactly when the suspect is the culprit, the perfect
rule does not fire, and the motive is correct or at least half (rounded
up) of the critical clues are discovered; wrong otherwise — in particular
always when the suspect is not the culprit. -/
theorem evaluateAccusation_tier (s : GameState) :
    ((evaluateAccusation s).endingKey = "perfect" ↔
        (s.accusation.suspectId = some CASE_SOLUTION.culpritId
      ∧ s.accusation.motiveId = some CASE_SOLUTION.motiveId
      ∧ criticalFoundCount s = CASE_SOLUTION.criticalClueIds.length))
  ∧ ((evaluateAccusation s).endingKey = "close" ↔
        (s.accusation.suspectId = some CASE_SOLUTION.culpritId
      ∧ (s.accusation.motiveId = some CASE_SOLUTION.motiveId
          ∨ ceilHalf CASE_SOLUTION.criticalClueIds.length
              ≤ criticalFoundCount s)
      ∧ ¬(s.accusation.motiveId = some CASE_SOLUTION.motiveId
          ∧ criticalFoundCount s = CASE_SOLUTION.criticalClueIds.length)))
  ∧ ((evaluateAccusation s).endingKey = "wrong" ↔
        (s.accusation.suspectId ≠ some CASE_SOLUTION.culpritId
      ∨ (s.accusation.motiveId ≠ some CASE_SOLUTION.motiveId
          ∧ ¬ ceilHalf CASE_SOLUTION.criticalClueIds.length
              ≤ criticalFoundCount s)))
  ∧ (s.accusation.suspectId ≠ some CASE_SOLUTION.culpritId →
        (evaluateAccusation s).endingKey = "wrong") := by
  by_cases hc : s.accusation.suspectId = some CASE_SOLUTION.culpritId <;>
    by_cases hm : s.accusation.motiveId = some CASE_SOLUTION.motiveId <;>
      by_cases hf : criticalFoundCount s
          = CASE_SOLUTION.criticalClueIds.length <;>
        by_cases hg : ceilHalf CASE_SOLUTION.criticalClueIds.length
            ≤ criticalFoundCount s <;>
          simp_all [evaluateAccusation]
  all_goals split <;> simp_all

/-- C1 witness: the not-the-culprit clause applied to an accusation of
milo with the correct motive and all critical clues discovered. -/
theorem evaluateAccusation_tier_witness :
    (evaluateAccusation { createInitialState with
        accusation := ⟨some "milo", some "coverup", none⟩
        discoveredClueIds := CASE_SOLUTION.criticalClueIds }).endingKey
      = "wrong" :=
  (evaluateAccusation_tier { createInitialState with
      accusation := ⟨some "milo", some "coverup", none⟩
      discoveredClueIds := CASE_SOLUTION.criticalClueIds }).2.2.2
    (by decide)

/-- advanceDialogueIndex either leaves the state unchanged or only bumps
the dialogue index by one. -/
lemma advanceDialogueIndex_frame (s : GameState) :
    (advanceDialogueIndex s).state = s
  ∨ (advanceDialogueIndex s).state
      = { s with dialogueContext :=
            ⟨s.dialogueContext.kind, s.dialogueContext.targetId,
             s.dialogueContext.index + 1⟩ } := by
  cases hres : (resolveDialogue s.dialogueContext).1 with
  | none => exact Or.inl (by simp [advanceDialogueIndex, hres])
  | some arr =>
    by_cases h0 : arr.length = 0
    · exact Or.inl (by simp [advanceDialogueIndex, hres, h0])
    · by_cases hlt : s.dialogueContext.index + 1 < arr.length
      · exact Or.inr (by simp [advanceDialogueIndex, hres, h0, hlt])
      · exact Or.inl (by simp [advanceDialogueIndex, hres, h0, hlt])

/-- revealNextCriticalClue either leaves the state unchanged or performs a
discoverClue call. -/
lemma revealNextCriticalClue_state (s : GameState) :
    (revealNextCriticalClue s).state = s
  ∨ ∃ id, (revealNextCriticalClue s).state = (discoverClue s id).state := by
  cases hr : CASE_SOLUTION.criticalClueIds.filter
      (fun id => !(s.discoveredClueIds.contains id)) with
  | nil =>
    refine Or.inl ?_
    simp only [revealNextCriticalClue]
    rw [hr]
  | cons a tail =>
    refine Or.inr ⟨a, ?_⟩
    simp only [revealNextCriticalClue]
    rw [hr]

/-- The C9 invariant: the discovered-clue list and the visited-location
list are duplicate-free. -/
def NoDupInv (s : GameState) : Prop :=
  s.discoveredClueIds.Nodup ∧ s.visitedLocationIds.Nodup

/-- C9: the no-duplicates invariant holds in the initial state and is
preserved by every operation of the public interface; the three adders go
through the membership-checked addUniqueToArray. -/
theorem nodup_invariant_preserved :
    NoDupInv createInitialState
  ∧ (∀ s, NoDupInv (resetGameState s))
  ∧ (∀ s id, NoDupInv s → NoDupInv ((discoverClue s id).state))
  ∧ (∀ s, NoDupInv s → NoDupInv ((revealNextCriticalClue s).state))
  ∧ (∀ s id, NoDupInv s → NoDupInv ((setCurrentLocation s id).state))
  ∧ (∀ s p, NoDupInv s → NoDupInv ((setPhase s p).1))
  ∧ (∀ s, NoDupInv s → NoDupInv ((advanceDialogueIndex s).state))
  ∧ (∀ s k t i, NoDupInv s → NoDupInv (setDialogueContext s k t i))
  ∧ (∀ s, NoDupInv s → NoDupInv (toggleCortexHints s).1)
  ∧ (∀ s n v, NoDupInv s → NoDupInv (setFlag s n v))
  ∧ (∀ s n, NoDupInv s → NoDupInv (clearFlag s n))
  ∧ (∀ s id, NoDupInv s → NoDupInv ((markSuspectIntroSeen s id).1))
  ∧ (∀ s id t, NoDupInv s → NoDupInv ((unlockSuspectTopic s id t).1))
  ∧ (∀ s a, NoDupInv s → NoDupInv (markLabActionUsed s a))
  ∧ (∀ s a, NoDupInv s → NoDupInv ((setAccusation s a).1))
  ∧ (∀ s, NoDupInv s → NoDupInv ((evaluateAccusation s).state)) := by
  have hdisc : ∀ s id, NoDupInv s → NoDupInv ((discoverClue s id).state) := by
    intro s id h
    cases hfind : findClueById id with
    | none => simpa [NoDupInv, discoverClue, hfind] using h
    | some c =>
      simp only [NoDupInv, discoverClue, hfind]
      exact ⟨addUniqueToArray_nodup _ _ h.1, h.2⟩
  refine ⟨⟨List.nodup_nil, List.nodup_nil⟩, fun _ => ⟨List.nodup_nil, List.nodup_nil⟩,
    hdisc, ?_, ?_, ?_, ?_, ?_, ?_, ?_, ?_, ?_, ?_, ?_, ?_, ?_⟩
  · intro s h
    rcases revealNextCriticalClue_state s with h1 | ⟨id, h1⟩ <;> rw [h1]
    · exact h
    · exact hdisc _ _ h
  · intro s id h
    cases hfind : findLocationById id with
    | none => simpa [NoDupInv, setCurrentLocation, hfind] using h
    | some loc =>
      simp only [NoDupInv, setCurrentLocation, hfind]
      exact ⟨h.1, addUniqueToArray_nodup _ _ h.2⟩
  · intro s p h
    unfold setPhase
    split
    · split
      · exact h
      · exact h
    · exact h
  · intro s h
    rcases advanceDialogueIndex_frame s with h1 | h1 <;> rw [h1] <;> exact h
  · intro s k t i h
    exact h
  · intro s h
    exact h
  · intro s n v h
    exact h
  · intro s n h
    exact h
  · intro s id h
    unfold markSuspectIntroSeen
    split
    · exact h
    · exact h
  · intro s id t h
    unfold unlockSuspectTopic
    split
    · exact h
    · exact h
  · intro s a h
    exact h
  · intro s a h
    exact h
  · intro s h
    exact h

/-- C9 witness: the preservation theorem applied to a concrete discovery
from the initial state. -/
theorem nodup_invariant_preserved_witness :
    NoDupInv ((discoverClue createInitialState "locked_office").state) :=
  nodup_invariant_preserved.2.2.1 createInitialState "locked_office"
    ⟨List.nodup_nil, List.nodup_nil⟩

/-- The C2 invariant: the ending key is non-null exactly when the phase is
the ending phase. -/
def EndingInv (s : GameState) : Prop :=
  s.endingKey ≠ none ↔ s.phase = "ending"

/-- C2 counterexample: setPhase with the argument ending, applied to the
initial state (which satisfies the invariant), yields a state whose phase
is ending while the ending key is still null — the claimed preservation by
setPhase with any argument fails. -/
theorem setPhase_ending_breaks_invariant :
    EndingInv createInitialState
  ∧ (setPhase createInitialState "ending").1.phase = "ending"
  ∧ (setPhase createInitialState "ending").1.endingKey = none
  ∧ ¬ EndingInv (setPhase createInitialState "ending").1 := by
  refine ⟨?_, by decide, by decide, ?_⟩
  · unfold EndingInv
    decide
  · unfold EndingInv
    decide

/-- C2 amended: the ending-key iff ending-phase invariant holds in the
initial state, is established unconditionally by resetGameState and by
evaluateAccusation, and is preserved by every other public operation
except setPhase; setPhase preserves it exactly when it does not move the
phase into or out of the ending phase (an unrecognized phase argument is a
warned no-op and always preserves it). -/
theorem ending_invariant_preserved :
    EndingInv createInitialState
  ∧ (∀ s, EndingInv (resetGameState s))
  ∧ (∀ s, EndingInv ((evaluateAccusation s).state))
  ∧ (∀ s id, EndingInv s → EndingInv ((discoverClue s id).state))
  ∧ (∀ s, EndingInv s → EndingInv ((revealNextCriticalClue s).state))
  ∧ (∀ s id, EndingInv s → EndingInv ((setCurrentLocation s id).state))
  ∧ (∀ s, EndingInv s → EndingInv ((advanceDialogueIndex s).state))
  ∧ (∀ s k t i, EndingInv s → EndingInv (setDialogueContext s k t i))
  ∧ (∀ s, EndingInv s → EndingInv (toggleCortexHints s).1)
  ∧ (∀ s n v, EndingInv s → EndingInv (setFlag s n v))
  ∧ (∀ s n, EndingInv s → EndingInv (clearFlag s n))
  ∧ (∀ s id, EndingInv s → EndingInv ((markSuspectIntroSeen s id).1))
  ∧ (∀ s id t, EndingInv s → EndingInv ((unlockSuspectTopic s id t).1))
  ∧ (∀ s a, EndingInv s → EndingInv (markLabActionUsed s a))
  ∧ (∀ s a, EndingInv s → EndingInv ((setAccusation s a).1))
  ∧ (∀ s p, EndingInv s →
      (EndingInv (setPhase s p).1 ↔
        (p ∈ GAME_PHASES_values → (p = "ending" ↔ s.phase = "ending")))) := by
  have hdisc : ∀ s id, EndingInv s → EndingInv ((discoverClue s id).state) := by
    intro s id h
    cases hfind : findClueById id with
    | none => simpa [discoverClue, hfind] using h
    | some c => simpa [EndingInv, discoverClue, hfind] using h
  refine ⟨by unfold EndingInv; decide,
    fun s => by unfold resetGameState EndingInv; decide,
    ?_, hdisc, ?_, ?_, ?_, ?_, ?_, ?_, ?_, ?_, ?_, ?_, ?_, ?_⟩
  · intro s
    simp [EndingInv, evaluateAccusation]
  · intro s h
    rcases revealNextCriticalClue_state s with h1 | ⟨id, h1⟩ <;> rw [h1]
    · exact h
    · exact hdisc _ _ h
  · intro s id h
    cases hfind : findLocationById id with
    | none => simpa [setCurrentLocation, hfind] using h
    | some loc => simpa [EndingInv, setCurrentLocation, hfind] using h
  · intro s h
    rcases advanceDialogueIndex_frame s with h1 | h1 <;> rw [h1] <;> exact h
  · intro s k t i h
    exact h
  · intro s h
    exact h
  · intro s n v h
    exact h
  · intro s n h
    exact h
  · intro s id h
    unfold markSuspectIntroSeen
    split
    · exact h
    · exact h
  · intro s id t h
    unfold unlockSuspectTopic
    split
    · exact h
    · exact h
  · intro s a h
    exact h
  · intro s a h
    exact h
  · intro s p h
    by_cases hp : p ∈ GAME_PHASES_values
    · have hstate : (setPhase s p).1.phase = p
          ∧ (setPhase s p).1.endingKey = s.endingKey := by
        unfold setPhase
        rw [if_pos hp]
        split
        · exact ⟨rfl, rfl⟩
        · exact ⟨rfl, rfl⟩
      unfold EndingInv at h ⊢
      rw [hstate.1, hstate.2]
      simp only [hp, true_implies]
      constructor
      · intro hnew
        rw [← hnew, h]
      · intro hiff
        rw [h, hiff]
    · have hstate : (setPhase s p).1 = s := by
        unfold setPhase
        rw [if_neg hp]
      rw [hstate]
      simp [hp, h]

/-- C2 amended witness: preservation applied to a concrete discovery from
the initial state, which satisfies the invariant. -/
theorem ending_invariant_preserved_witness :
    EndingInv ((discoverClue createInitialState "locked_office").state) :=
  ending_invariant_preserved.2.2.2.1 createInitialState "locked_office"
    (by unfold EndingInv; decide)

/-- The state after one advanceDialogueIndex call. -/
def stepDialogue (s : GameState) : GameState :=
  (advanceDialogueIndex s).state

/-- The state after k repeated advanceDialogueIndex calls. -/
def advanceTimes : Nat → GameState → GameState
  | 0, s => s
  | k + 1, s => stepDialogue (advanceTimes k s)

/-- resolveDialogue never reads the index field of the context. -/
lemma resolveDialogue_index (ctx : DialogueContext) (j : Nat) :
    resolveDialogue ⟨ctx.kind, ctx.targetId, j⟩ = resolveDialogue ctx :=
  rfl

/-- On a resolved context with room left, advanceDialogueIndex reports
continue and bumps the index by exactly one. -/
lemma advanceDialogueIndex_continue (s : GameState) (arr : List DialogueLine)
    (hres : (resolveDialogue s.dialogueContext).1 = some arr)
    (hlt : s.dialogueContext.index + 1 < arr.length) :
    (advanceDialogueIndex s).ret = "continue"
  ∧ (advanceDialogueIndex s).state
      = { s with dialogueContext :=
            ⟨s.dialogueContext.kind, s.dialogueContext.targetId,
             s.dialogueContext.index + 1⟩ } := by
  have h0 : ¬ arr.length = 0 := by omega
  simp [advanceDialogueIndex, hres, h0, hlt]

/-- On a resolved nonempty context already at the last line,
advanceDialogueIndex reports end and leaves the state unchanged. -/
lemma advanceDialogueIndex_end (s : GameState) (arr : List DialogueLine)
    (hres : (resolveDialogue s.dialogueContext).1 = some arr)
    (hne : 1 ≤ arr.length)
    (hge : ¬ s.dialogueContext.index + 1 < arr.length) :
    (advanceDialogueIndex s).ret = "end"
  ∧ (advanceDialogueIndex s).state = s := by
  have h0 : ¬ arr.length = 0 := by omega
  simp [advanceDialogueIndex, hres, h0, hge]

/-- Starting at index 0 on a resolved script of length N, k advance calls
leave the cursor at min k (N - 1) and change nothing else. -/
lemma advanceTimes_index (s : GameState) (arr : List DialogueLine)
    (hres : (resolveDialogue s.dialogueContext).1 = some arr)
    (hne : 1 ≤ arr.length) (h0 : s.dialogueContext.index = 0) (k : Nat) :
    advanceTimes k s
      = { s with dialogueContext :=
            ⟨s.dialogueContext.kind, s.dialogueContext.targetId,
             min k (arr.length - 1)⟩ } := by
  induction k with
  | zero =>
    have hmin : min 0 (arr.length - 1) = 0 := Nat.zero_min _
    have hctx : (⟨s.dialogueContext.kind, s.dialogueContext.targetId,
        min 0 (arr.length - 1)⟩ : DialogueContext) = s.dialogueContext := by
      rw [hmin, ← h0]
    rw [hctx]
    rfl
  | succ k ih =>
    show stepDialogue (advanceTimes k s) = _
    rw [ih]
    have hres2 : (resolveDialogue
        ({ s with dialogueContext :=
            ⟨s.dialogueContext.kind, s.dialogueContext.targetId,
             min k (arr.length - 1)⟩ } : GameState).dialogueContext).1
        = some arr := by
      rw [show ({ s with dialogueContext :=
            ⟨s.dialogueContext.kind, s.dialogueContext.targetId,
             min k (arr.length - 1)⟩ } : GameState).dialogueContext
          = ⟨s.dialogueContext.kind, s.dialogueContext.targetId,
             min k (arr.length - 1)⟩ from rfl,
        resolveDialogue_index]
      exact hres
    by_cases hlt : min k (arr.length - 1) + 1 < arr.length
    · have hcont := advanceDialogueIndex_continue _ arr hres2 hlt
      rw [stepDialogue, hcont.2]
      have hmin : min (k + 1) (arr.length - 1) = min k (arr.length - 1) + 1 := by
        omega
      rw [hmin]
    · have hend := advanceDialogueIndex_end _ arr hres2 hne hlt
      rw [stepDialogue, hend.2]
      have hmin : min (k + 1) (arr.length - 1) = min k (arr.length - 1) := by
        omega
      rw [hmin]

/-- C4: on a dialogue context whose resolved script has length N with
N at least 1, starting from index 0, the k-th advanceDialogueIndex call
reports continue for every k below N - 1 (bumping the index by exactly
one) and end for every k from N - 1 on (leaving the state unchanged), and
the index never exceeds N - 1. -/
theorem dialogue_advance_progression (s : GameState)
    (arr : List DialogueLine)
    (hres : (resolveDialogue s.dialogueContext).1 = some arr)
    (hne : 1 ≤ arr.length) (h0 : s.dialogueContext.index = 0) :
    (∀ k, k < arr.length - 1 →
        (advanceDialogueIndex (advanceTimes k s)).ret = "continue"
      ∧ (advanceDialogueIndex (advanceTimes k s)).state.dialogueContext.index
          = (advanceTimes k s).dialogueContext.index + 1)
  ∧ (∀ k, arr.length - 1 ≤ k →
        (advanceDialogueIndex (advanceTimes k s)).ret = "end"
      ∧ (advanceDialogueIndex (advanceTimes k s)).state = advanceTimes k s)
  ∧ (∀ k, (advanceTimes k s).dialogueContext.index ≤ arr.length - 1) := by
  have hAT := advanceTimes_index s arr hres hne h0
  have hresk : ∀ k, (resolveDialogue (advanceTimes k s).dialogueContext).1
      = some arr := by
    intro k
    rw [hAT k]
    rw [show ({ s with dialogueContext :=
          ⟨s.dialogueContext.kind, s.dialogueContext.targetId,
           min k (arr.length - 1)⟩ } : GameState).dialogueContext
        = ⟨s.dialogueContext.kind, s.dialogueContext.targetId,
           min k (arr.length - 1)⟩ from rfl,
      resolveDialogue_index]
    exact hres
  have hidx : ∀ k, (advanceTimes k s).dialogueContext.index
      = min k (arr.length - 1) := by
    intro k
    rw [hAT k]
  refine ⟨?_, ?_, ?_⟩
  · intro k hk
    have hlt : (advanceTimes k s).dialogueContext.index + 1 < arr.length := by
      rw [hidx k]
      omega
    have hcont := advanceDialogueIndex_continue _ arr (hresk k) hlt
    refine ⟨hcont.1, ?_⟩
    rw [hcont.2]
  · intro k hk
    have hge : ¬ (advanceTimes k s).dialogueContext.index + 1 < arr.length := by
      rw [hidx k]
      omega
    exact advanceDialogueIndex_end _ arr (hresk k) hne hge
  · intro k
    rw [hidx k]
    omega

/-- C4 witness: the intro context of the initial state has four lines; the
first call reports continue, the fourth and later calls report end without
state change, and the index stays within bounds. -/
theorem dialogue_advance_progression_witness :
    (advanceDialogueIndex (advanceTimes 0 createInitialState)).ret
        = "continue"
  ∧ (advanceDialogueIndex (advanceTimes 3 createInitialState)).ret = "end"
  ∧ (advanceDialogueIndex (advanceTimes 5 createInitialState)).state
        = advanceTimes 5 createInitialState
  ∧ (advanceTimes 9 createInitialState).dialogueContext.index
        ≤ INTRO_DIALOGUE.length - 1 := by
  have h := dialogue_advance_progression createInitialState INTRO_DIALOGUE
    (by decide) (by decide) (by decide)
  exact ⟨(h.1 0 (by decide)).1, (h.2.1 3 (by decide)).1,
    (h.2.1 5 (by decide)).2, h.2.2 9⟩

end Cortex
